import Mathlib

/-!
Shallow embedding of the `coupongo` CLI (Go) for checking its specification.

Sources embedded here:
* `pkg/types/types.go` — `Environment`, `Config`, `DefaultConfig`.
* `internal/config` (config manager) — `Load`, `Save`, `validateAPIKey`,
  `AddEnvironment`, `RemoveEnvironment`, `SetCurrentEnvironment`,
  `UpdateEnvironmentAPIKey`, `Reset`.
* `internal/stripe/promotion.go` — `BatchCreatePromotionCodes` and its
  error aggregation; `internal/stripe` coupon service — `CreateCoupon`
  request validation.
* the CLI `promo batch` command — its treatment of a partial batch result.
* the CLI `maskAPIKey` helper.

Modelling conventions: Go maps `map[string]V` are represented as association
lists `List (String × V)` (a Go map always has no duplicate keys; theorems
that need that fact take it as a hypothesis). Go errors are represented as
`Except` values carrying the formatted message. Network calls made through
the Stripe SDK are abstracted as oracle functions passed in as parameters;
the repository's own control flow around them is embedded faithfully.
Strings are treated at character granularity (Stripe keys and generated
codes are ASCII, where Go's byte indexing coincides).
-/

namespace Coupongo

/-- `pkg/types/types.go`: an environment profile. -/
structure Environment where
  stripeAPIKey : String
  defaultCurrency : String
  outputFormat : String
deriving DecidableEq, Repr

/-- `pkg/types/types.go`: the application configuration. -/
structure Config where
  currentEnvironment : String
  environments : List (String × Environment)
deriving DecidableEq, Repr

/-- `pkg/types/types.go` `DefaultConfig`: one "test" environment. -/
def DefaultConfig : Config :=
  { currentEnvironment := "test"
    environments := [("test",
      { stripeAPIKey := ""
        defaultCurrency := "usd"
        outputFormat := "table" })] }

/-- Errors produced by `validateAPIKey`. The `invalidFormat` constructor
corresponds to errors wrapping the `ErrInvalidAPIKey` sentinel
(`errors.Is(err, ErrInvalidAPIKey)` holds); the empty-key error is a plain
error that does not wrap the sentinel. -/
inductive KeyError where
  | emptyKey : KeyError
  | invalidFormat : String → KeyError
deriving DecidableEq, Repr

/-- Whether `errors.Is(err, ErrInvalidAPIKey)` would hold for the error. -/
def KeyError.isInvalidAPIKey : KeyError → Bool
  | .emptyKey => false
  | .invalidFormat _ => true

/-- The formatted message of the error (`fmt.Errorf("%w: ...")` prints the
wrapped sentinel's message, a colon, then the detail). -/
def KeyError.message : KeyError → String
  | .emptyKey => "API key cannot be empty"
  | .invalidFormat detail => "invalid API key format: " ++ detail

/-- Go's `strings.HasPrefix s pre` (byte-level in Go; identical to
character-level prefix on the ASCII strings involved). -/
def goHasPrefix (s pre : String) : Bool :=
  pre.data.isPrefixOf s.data

/-- `validateAPIKey` from the config manager: empty keys are rejected with a
plain error; otherwise the key must start with "sk_" or "rk_" and have
length at least 20. -/
def validateAPIKey (apiKey : String) : Except KeyError Unit :=
  if apiKey = "" then
    .error .emptyKey
  else if ¬ (goHasPrefix apiKey "sk_") ∧ ¬ (goHasPrefix apiKey "rk_") then
    .error (.invalidFormat "key must start with 'sk_' or 'rk_'")
  else if apiKey.length < 20 then
    .error (.invalidFormat "key too short")
  else
    .ok ()

/-- The persisted form of the configuration (the JSON document written by
`Save` with `json.MarshalIndent` and read back by `Load` with
`json.Unmarshal`; marshalling of a string field and a string-keyed map is
lossless, so the document carries the same data as the in-memory value). -/
structure ConfigFile where
  current_environment : String
  environments : List (String × Environment)
deriving DecidableEq, Repr

/-- `Save` from the config manager: marshals the in-memory configuration to
the config file. -/
def Save (c : Config) : ConfigFile :=
  { current_environment := c.currentEnvironment
    environments := c.environments }

/-- `Load` from the config manager. `none` stands for a missing config file
(`os.IsNotExist`), in which case the default configuration is created;
otherwise the file's contents are parsed and normalised: a nil environments
map becomes an empty one (invisible in the list representation) and an
empty current-environment becomes "test". -/
def Load (file : Option ConfigFile) : Config :=
  match file with
  | none => DefaultConfig
  | some f =>
    { currentEnvironment :=
        if f.current_environment = "" then "test" else f.current_environment
      environments := f.environments }

/-- Go map assignment `m[k] = v`: replace any entry with this key. The new
entry is placed at the head (a Go map is unordered). -/
def mapInsert (k : String) (v : Environment)
    (m : List (String × Environment)) : List (String × Environment) :=
  (k, v) :: m.filter (fun p => p.1 ≠ k)

/-- `AddEnvironment` from the config manager: rejects an empty name,
validates a non-empty API key, then fills in the "usd"/"table" defaults and
stores the environment. (The synchronous `Save` to disk is outside the
model; the returned configuration is what gets persisted.) -/
def AddEnvironment (c : Config) (name : String) (env : Environment) :
    Except String Config :=
  if name = "" then
    .error "environment name cannot be empty"
  else
    match (if env.stripeAPIKey = "" then .ok () else validateAPIKey env.stripeAPIKey) with
    | .error e => .error e.message
    | .ok _ =>
      let env' : Environment :=
        { env with
          defaultCurrency :=
            if env.defaultCurrency = "" then "usd" else env.defaultCurrency
          outputFormat :=
            if env.outputFormat = "" then "table" else env.outputFormat }
      .ok { c with environments := mapInsert name env' c.environments }

/-- `RemoveEnvironment` from the config manager: absent names fail with
`ErrEnvironmentNotFound`; the last remaining environment cannot be removed;
otherwise the entry is deleted and, when the removed environment was
current, the current environment becomes the first remaining one (a Go map
range picks an arbitrary entry; the model picks the head of the list). -/
def RemoveEnvironment (c : Config) (name : String) : Except String Config :=
  if (c.environments.lookup name).isNone then
    .error ("environment not found: " ++ name)
  else if c.environments.length = 1 then
    .error "cannot remove the last environment"
  else
    let envs' := c.environments.filter (fun p => p.1 ≠ name)
    let cur' :=
      if c.currentEnvironment = name then
        match envs'.head? with
        | some p => p.1
        | none => c.currentEnvironment
      else c.currentEnvironment
    .ok { currentEnvironment := cur', environments := envs' }

/-- `SetCurrentEnvironment` from the config manager. -/
def SetCurrentEnvironment (c : Config) (name : String) :
    Except String Config :=
  if (c.environments.lookup name).isNone then
    .error ("environment not found: " ++ name)
  else
    .ok { c with currentEnvironment := name }

/-- `UpdateEnvironmentAPIKey` from the config manager: the environment must
exist and the new key must pass `validateAPIKey`. -/
def UpdateEnvironmentAPIKey (c : Config) (envName apiKey : String) :
    Except String Config :=
  match c.environments.lookup envName with
  | none => .error ("environment not found: " ++ envName)
  | some env =>
    match validateAPIKey apiKey with
    | .error e => .error e.message
    | .ok _ =>
      .ok { c with environments :=
              mapInsert envName { env with stripeAPIKey := apiKey } c.environments }

/-- `Reset` from the config manager: restore the default configuration. -/
def Reset (_c : Config) : Config := DefaultConfig

/-- `maskAPIKey` from the CLI config commands: empty → "Not set", short
(≤ 10) → "****", otherwise first three characters, "****", last four. -/
def maskAPIKey (apiKey : String) : String :=
  if apiKey = "" then
    "Not set"
  else if apiKey.length ≤ 10 then
    "****"
  else
    apiKey.take 3 ++ "****" ++ apiKey.drop (apiKey.length - 4)

/-! ## Coupon service (`internal/stripe`, coupon operations) -/

/-- Options for `CreateCoupon`. Fields that are only copied verbatim into
the request after validation (ID, name, max redemptions, redeem-by,
applies-to, currency options, metadata) are omitted: they take no part in
any control flow. `percentOff` models the Go `*float64`. -/
structure CouponCreateOptions where
  percentOff : Option Float
  amountOff : Option Int
  currency : String
  duration : String
  durationInMonths : Option Int

/-- The validated request payload handed to the Stripe SDK's `coupon.New`
(the fields the validation logic determines). Producing this value is
"dispatching the Stripe call". -/
structure CouponParams where
  duration : String
  percentOff : Option Float
  amountOff : Option Int
  currency : Option String
  durationInMonths : Option Int

/-- `CreateCoupon` up to the point of dispatch: the request validation of
the coupon service, in source order. An `.ok` result means the call reached
`coupon.New` with these parameters (the network outcome itself is outside
the model); an `.error` aborts before any Stripe call. An empty duration
defaults to "once" before the duration validity check. -/
def CreateCoupon (initialized : Bool) (opts : CouponCreateOptions) :
    Except String CouponParams :=
  if ¬ initialized then
    .error "client not initialized"
  else if opts.percentOff.isNone ∧ opts.amountOff.isNone then
    .error "either percent_off or amount_off must be specified"
  else if opts.percentOff.isSome ∧ opts.amountOff.isSome then
    .error "cannot specify both percent_off and amount_off"
  else if opts.amountOff.isSome ∧ opts.currency = "" then
    .error "currency is required when amount_off is specified"
  else if ¬ ((if opts.duration = "" then "once" else opts.duration) = "forever"
      ∨ (if opts.duration = "" then "once" else opts.duration) = "once"
      ∨ (if opts.duration = "" then "once" else opts.duration) = "repeating") then
    .error ("invalid duration: "
      ++ (if opts.duration = "" then "once" else opts.duration)
      ++ " (must be forever, once, or repeating)")
  else if (if opts.duration = "" then "once" else opts.duration) = "repeating"
      ∧ opts.durationInMonths.isNone then
    .error "duration_in_months is required when duration is repeating"
  else
    .ok { duration := if opts.duration = "" then "once" else opts.duration
          percentOff := opts.percentOff
          amountOff := opts.amountOff
          currency := if opts.amountOff.isSome then some opts.currency else none
          durationInMonths := opts.durationInMonths }

/-! ## Promotion code service (`internal/stripe/promotion.go`) -/

/-- A created promotion code as returned by the Stripe SDK (opaque here). -/
structure PromotionCode where
  id : String
  code : String
deriving DecidableEq, Repr

/-- Options for `BatchCreatePromotionCodes`. The passthrough fields
(customer, max redemptions, minimum amount, currency, expiry, first-time
flag, metadata) are copied unchanged into every per-code create call and
are omitted; the code generation from `Prefix` is abstracted by the `gen`
oracle below (it is randomized in the source). -/
structure BatchCreateOptions where
  couponID : String
  count : Int

/-- The `min` helper defined at the bottom of `promotion.go`. -/
def goMin (a b : Nat) : Nat :=
  if a < b then a else b

/-- Outcome of the batch loop: successfully created codes, accumulated
per-code error messages (both in loop order), and the number of
`CreatePromotionCode` calls issued (instrumentation, counting oracle
invocations). -/
structure BatchRun where
  codes : List PromotionCode
  errs : List String
  attempts : Nat
deriving DecidableEq, Repr

/-- The batch loop body over a list of loop indices: at index `i` the code
string is `gen i` (modelling `generatePromotionCode(prefix, i+1)`) and the
create call's outcome is `create i`; a failure is recorded as
"failed to create code <code>: <err>" and the loop continues. -/
def batchIter (gen : Nat → String)
    (create : Nat → Except String PromotionCode) :
    List Nat → BatchRun
  | [] => { codes := [], errs := [], attempts := 0 }
  | i :: is =>
    let r := batchIter gen create is
    match create i with
    | .ok pc =>
      { codes := pc :: r.codes, errs := r.errs, attempts := r.attempts + 1 }
    | .error e =>
      { codes := r.codes
        errs := ("failed to create code " ++ gen i ++ ": " ++ e) :: r.errs
        attempts := r.attempts + 1 }

/-- The aggregated error text of a partially failed batch: the
"created X/Y codes successfully" header, the first (at most) five
individual error messages, and a "... and N more errors" line when more
than five failed. -/
def batchErrorMsg (numCodes : Nat) (count : Int) (errs : List String) : String :=
  let base := "created " ++ toString numCodes ++ "/" ++ toString count
      ++ " codes successfully"
  let msg := (errs.take (goMin errs.length 5)).foldl
      (fun m e => m ++ "\n  " ++ e) base
  if 5 < errs.length then
    msg ++ "\n  ... and " ++ toString (errs.length - 5) ++ " more errors"
  else
    msg

/-- What `BatchCreatePromotionCodes` returns: the Go pair
`([]*stripe.PromotionCode, error)` (a nil/empty slice is `[]`, a nil error
is `none`), plus the instrumented count of create calls issued. -/
structure BatchResult where
  codes : List PromotionCode
  err : Option String
  attempts : Nat
deriving DecidableEq, Repr

/-- `BatchCreatePromotionCodes`: validation (initialized client, non-empty
coupon ID, `0 < count ≤ 1000`), then the sequential create loop, then
partial-failure aggregation. -/
def BatchCreatePromotionCodes (initialized : Bool)
    (opts : BatchCreateOptions) (gen : Nat → String)
    (create : Nat → Except String PromotionCode) : BatchResult :=
  if ¬ initialized then
    { codes := [], err := some "client not initialized", attempts := 0 }
  else if opts.couponID = "" then
    { codes := [], err := some "coupon ID is required", attempts := 0 }
  else if opts.count ≤ 0 then
    { codes := [], err := some "count must be greater than 0", attempts := 0 }
  else if 1000 < opts.count then
    { codes := [], err := some "count cannot exceed 1000", attempts := 0 }
  else
    let r := batchIter gen create (List.range opts.count.toNat)
    if 0 < r.errs.length then
      { codes := r.codes
        err := some (batchErrorMsg r.codes.length opts.count r.errs)
        attempts := r.attempts }
    else
      { codes := r.codes, err := none, attempts := r.attempts }

/-- The `promo batch` CLI command's handling of the service result: the
command as a whole fails only when the error is non-nil AND no codes were
created; otherwise it reports success (printing a warning for a partial
failure) and returns the created codes. -/
def promoBatchCmd (r : BatchResult) : Except String (List PromotionCode) :=
  if r.err.isSome ∧ r.codes.isEmpty then
    .error ("failed to create promotion codes: " ++ r.err.getD "")
  else
    .ok r.codes

/-- A block of error messages, each on its own line indented by two spaces
(the layout of the aggregated batch error). -/
def errLines : List String → String
  | [] => ""
  | e :: es => "\n  " ++ e ++ errLines es

/-- The individual failure message recorded for loop index `i` when its
create call fails with `e`. -/
def perCodeErrorMsg (gen : Nat → String) (i : Nat) (e : String) : String :=
  "failed to create code " ++ gen i ++ ": " ++ e

/-- The per-index outcome view of the create oracle: `none` for a
successful index, the recorded failure message for a failing one. -/
def perCodeFailure (gen : Nat → String)
    (create : Nat → Except String PromotionCode) (i : Nat) : Option String :=
  match create i with
  | .ok _ => none
  | .error e => some (perCodeErrorMsg gen i e)

/-! ## Lemmas about the batch loop -/

theorem batchIter_attempts (gen : Nat → String)
    (create : Nat → Except String PromotionCode) :
    ∀ l : List Nat, (batchIter gen create l).attempts = l.length := by
  intro l
  induction l with
  | nil => rfl
  | cons i is ih =>
    simp only [batchIter]
    cases hc : create i <;> simp [hc, ih]

theorem batchIter_codes (gen : Nat → String)
    (create : Nat → Except String PromotionCode) :
    ∀ l : List Nat, (batchIter gen create l).codes
      = l.filterMap (fun i => (create i).toOption) := by
  intro l
  induction l with
  | nil => rfl
  | cons i is ih =>
    simp only [batchIter, List.filterMap_cons]
    cases hc : create i <;> simp [hc, ih, Except.toOption]

theorem batchIter_errs (gen : Nat → String)
    (create : Nat → Except String PromotionCode) :
    ∀ l : List Nat, (batchIter gen create l).errs
      = l.filterMap (perCodeFailure gen create) := by
  intro l
  induction l with
  | nil => rfl
  | cons i is ih =>
    simp only [batchIter, List.filterMap_cons, perCodeFailure, perCodeErrorMsg]
    cases hc : create i <;> simp [hc, ih]

theorem batchIter_errs_length (gen : Nat → String)
    (create : Nat → Except String PromotionCode) :
    ∀ l : List Nat, (batchIter gen create l).errs.length
      = (l.filter (fun i => !(create i).isOk)).length := by
  intro l
  induction l with
  | nil => rfl
  | cons i is ih =>
    simp only [batchIter, List.filter_cons]
    cases hc : create i <;>
      simp [hc, ih, Except.isOk, Except.toBool]

theorem batchIter_total_length (gen : Nat → String)
    (create : Nat → Except String PromotionCode) :
    ∀ l : List Nat, (batchIter gen create l).codes.length
      + (batchIter gen create l).errs.length = l.length := by
  intro l
  induction l with
  | nil => rfl
  | cons i is ih =>
    simp only [batchIter]
    cases hc : create i <;>
      simp [hc, List.length_cons, ← ih] <;> omega

theorem foldl_errLines (l : List String) : ∀ base : String,
    l.foldl (fun m e => m ++ "\n  " ++ e) base = base ++ errLines l := by
  induction l with
  | nil => intro base; simp [errLines]
  | cons e es ih =>
    intro base
    rw [List.foldl_cons, ih]
    simp [errLines, String.append_assoc]

theorem take_goMin_length (l : List String) (n : Nat) :
    l.take (goMin l.length n) = l.take n := by
  unfold goMin
  by_cases h : l.length < n
  · rw [if_pos h, List.take_length, List.take_of_length_le (Nat.le_of_lt h)]
  · rw [if_neg h]

/-- On a valid request (initialized client, non-empty coupon ID, count in
range) the batch create runs the loop and aggregates its outcome. -/
theorem batchCreate_run (opts : BatchCreateOptions) (gen : Nat → String)
    (create : Nat → Except String PromotionCode)
    (hcid : opts.couponID ≠ "") (h1 : 0 < opts.count) (h2 : opts.count ≤ 1000) :
    BatchCreatePromotionCodes true opts gen create
      = (if 0 < (batchIter gen create (List.range opts.count.toNat)).errs.length
         then
           { codes := (batchIter gen create (List.range opts.count.toNat)).codes
             err := some (batchErrorMsg
               (batchIter gen create (List.range opts.count.toNat)).codes.length
               opts.count
               (batchIter gen create (List.range opts.count.toNat)).errs)
             attempts := (batchIter gen create (List.range opts.count.toNat)).attempts }
         else
           { codes := (batchIter gen create (List.range opts.count.toNat)).codes
             err := none
             attempts := (batchIter gen create (List.range opts.count.toNat)).attempts }) := by
  have hn0 : ¬ opts.count ≤ 0 := by omega
  have hn2 : ¬ 1000 < opts.count := by omega
  unfold BatchCreatePromotionCodes
  simp [hcid, hn0, hn2]

/-! ## Claim theorems -/

/-- C3: for a batch create on an initialized client with a non-empty coupon
ID, a count that is ≤ 0 or > 1000 yields the corresponding validation
error, an empty code list, and zero create calls issued. -/
theorem batchCreate_invalid_count (opts : BatchCreateOptions)
    (gen : Nat → String) (create : Nat → Except String PromotionCode)
    (hcid : opts.couponID ≠ "") (hcount : opts.count ≤ 0 ∨ 1000 < opts.count) :
    BatchCreatePromotionCodes true opts gen create
      = { codes := []
          err := some (if opts.count ≤ 0 then "count must be greater than 0"
                       else "count cannot exceed 1000")
          attempts := 0 } := by
  unfold BatchCreatePromotionCodes
  rcases hcount with h | h
  · simp [hcid, h]
  · have h0 : ¬ opts.count ≤ 0 := by omega
    simp [hcid, h0, h]

/-- Witness for C3: count 0 and count 1001 both reject without issuing any
create call. -/
theorem batchCreate_invalid_count_witness :
    BatchCreatePromotionCodes true { couponID := "co_1", count := 0 }
        (fun _ => "X") (fun _ => .error "boom")
      = { codes := [], err := some "count must be greater than 0", attempts := 0 }
    ∧ BatchCreatePromotionCodes true { couponID := "co_1", count := 1001 }
        (fun _ => "X") (fun _ => .error "boom")
      = { codes := [], err := some "count cannot exceed 1000", attempts := 0 } :=
  ⟨batchCreate_invalid_count _ _ _ (by decide) (Or.inl (by decide)),
   batchCreate_invalid_count _ _ _ (by decide) (Or.inr (by decide))⟩

/-- C1: on a valid batch request in which exactly `k` of the `count`
sequential create calls fail, `0 < k < count`, the call returns exactly the
`count - k` successfully created codes, attempts all `count` calls (no
short-circuiting), and its error message starts with
"created <count-k>/<count> codes successfully", followed by the first at
most five individual failure messages and, when `k > 5`, a
"... and N more errors" line. -/
theorem batchCreate_partial_failure (opts : BatchCreateOptions)
    (gen : Nat → String) (create : Nat → Except String PromotionCode) (k : Nat)
    (hcid : opts.couponID ≠ "") (h1 : 0 < opts.count) (h2 : opts.count ≤ 1000)
    (hk : ((List.range opts.count.toNat).filter
        (fun i => !(create i).isOk)).length = k)
    (hk0 : 0 < k) (hklt : k < opts.count.toNat) :
    (BatchCreatePromotionCodes true opts gen create).codes
        = (List.range opts.count.toNat).filterMap (fun i => (create i).toOption)
    ∧ (BatchCreatePromotionCodes true opts gen create).codes.length
        = opts.count.toNat - k
    ∧ (BatchCreatePromotionCodes true opts gen create).attempts
        = opts.count.toNat
    ∧ (BatchCreatePromotionCodes true opts gen create).err
        = some ("created " ++ toString (opts.count.toNat - k) ++ "/"
            ++ toString opts.count ++ " codes successfully"
            ++ errLines (((List.range opts.count.toNat).filterMap
                (perCodeFailure gen create)).take 5)
            ++ (if 5 < k then
                  "\n  ... and " ++ toString (k - 5) ++ " more errors"
                else "")) := by
  have hrun := batchCreate_run opts gen create hcid h1 h2
  have hel : (batchIter gen create (List.range opts.count.toNat)).errs.length = k := by
    rw [batchIter_errs_length, hk]
  have htot : (batchIter gen create (List.range opts.count.toNat)).codes.length
      + (batchIter gen create (List.range opts.count.toNat)).errs.length
      = opts.count.toNat := by
    have h := batchIter_total_length gen create (List.range opts.count.toNat)
    simpa using h
  have hcl : (batchIter gen create (List.range opts.count.toNat)).codes.length
      = opts.count.toNat - k := by omega
  have hpos : 0 < (batchIter gen create (List.range opts.count.toNat)).errs.length := by
    omega
  rw [hrun, if_pos hpos]
  refine ⟨batchIter_codes gen create _, ?_, ?_, ?_⟩
  · exact hcl
  · simpa using batchIter_attempts gen create (List.range opts.count.toNat)
  · show some (batchErrorMsg _ _ _) = _
    unfold batchErrorMsg
    have hfl : ((List.range opts.count.toNat).filterMap
        (perCodeFailure gen create)).length = k := by
      rw [← batchIter_errs]; exact hel
    have htk := take_goMin_length
      ((List.range opts.count.toNat).filterMap (perCodeFailure gen create)) 5
    rw [hfl] at htk
    simp only [take_goMin_length, foldl_errLines, hcl, batchIter_errs, hfl, htk]
    by_cases h5 : 5 < k
    · simp [h5, String.append_assoc]
    · simp [h5, String.append_assoc]

/-- Witness for C1: 3 of 10 simulated calls fail → 7 codes, 10 attempts,
and an error "created 7/10 codes successfully" listing the three failure
messages. -/
theorem batchCreate_partial_failure_witness :
    (BatchCreatePromotionCodes true { couponID := "co_1", count := 10 }
        (fun i => "PROMO" ++ toString (i + 1))
        (fun i => if i % 3 = 1 then .error "boom" else .ok ⟨"pc", "c"⟩)).codes.length
      = 7
    ∧ (BatchCreatePromotionCodes true { couponID := "co_1", count := 10 }
        (fun i => "PROMO" ++ toString (i + 1))
        (fun i => if i % 3 = 1 then .error "boom" else .ok ⟨"pc", "c"⟩)).attempts
      = 10
    ∧ (BatchCreatePromotionCodes true { couponID := "co_1", count := 10 }
        (fun i => "PROMO" ++ toString (i + 1))
        (fun i => if i % 3 = 1 then .error "boom" else .ok ⟨"pc", "c"⟩)).err
      = some ("created 7/10 codes successfully"
          ++ "\n  failed to create code PROMO2: boom"
          ++ "\n  failed to create code PROMO5: boom"
          ++ "\n  failed to create code PROMO8: boom") := by
  have h := batchCreate_partial_failure { couponID := "co_1", count := 10 }
    (fun i => "PROMO" ++ toString (i + 1))
    (fun i => if i % 3 = 1 then .error "boom" else .ok ⟨"pc", "c"⟩) 3
    (by decide) (by decide) (by decide) (by decide) (by decide) (by decide)
  refine ⟨h.2.1, h.2.2.1, ?_⟩
  rw [h.2.2.2]
  rfl

theorem isOk_iff_toOption {e : Except String PromotionCode} :
    e.isOk ↔ ∃ pc, e.toOption = some pc := by
  cases e <;> simp [Except.isOk, Except.toBool, Except.toOption]

theorem not_isOk_iff_failure (gen : Nat → String)
    (create : Nat → Except String PromotionCode) (j : Nat) :
    ¬ (create j).isOk ↔ ∃ m, perCodeFailure gen create j = some m := by
  cases hc : create j <;>
    simp [perCodeFailure, Except.isOk, Except.toBool, hc]

/-- C2: overall batch failure happens only when zero codes succeeded:
whenever at least one code was created the `promo batch` command reports
success, and a non-empty code list alongside a non-nil error occurs exactly
in the partial-failure case (on a valid request in which some create call
succeeded and some create call failed). -/
theorem promoBatch_partial_failure_only (initialized : Bool)
    (opts : BatchCreateOptions) (gen : Nat → String)
    (create : Nat → Except String PromotionCode) :
    ((BatchCreatePromotionCodes initialized opts gen create).codes ≠ [] →
      promoBatchCmd (BatchCreatePromotionCodes initialized opts gen create)
        = .ok (BatchCreatePromotionCodes initialized opts gen create).codes)
    ∧ ((BatchCreatePromotionCodes initialized opts gen create).codes ≠ []
        ∧ (BatchCreatePromotionCodes initialized opts gen create).err ≠ none →
        (∃ i ∈ List.range opts.count.toNat, (create i).isOk)
        ∧ (∃ j ∈ List.range opts.count.toNat, ¬ (create j).isOk))
    ∧ (initialized = true → opts.couponID ≠ "" → 0 < opts.count →
        opts.count ≤ 1000 →
        (∃ i ∈ List.range opts.count.toNat, (create i).isOk) →
        (∃ j ∈ List.range opts.count.toNat, ¬ (create j).isOk) →
        (BatchCreatePromotionCodes initialized opts gen create).codes ≠ []
        ∧ (BatchCreatePromotionCodes initialized opts gen create).err ≠ none) := by
  refine ⟨?_, ?_, ?_⟩
  · intro h
    unfold promoBatchCmd
    rw [if_neg]
    intro hc
    exact h (List.isEmpty_iff.mp hc.2)
  · intro ⟨hcne, herr⟩
    cases initialized with
    | false =>
      exfalso; apply hcne
      unfold BatchCreatePromotionCodes; simp
    | true =>
      by_cases hc : opts.couponID = ""
      · exfalso; apply hcne
        unfold BatchCreatePromotionCodes; simp [hc]
      · by_cases h0 : opts.count ≤ 0
        · exfalso; apply hcne
          unfold BatchCreatePromotionCodes; simp [hc, h0]
        · by_cases h1 : 1000 < opts.count
          · exfalso; apply hcne
            unfold BatchCreatePromotionCodes; simp [hc, h0, h1]
          · have hrun := batchCreate_run opts gen create hc (by omega) (by omega)
            rw [hrun] at hcne herr
            by_cases hpos :
                0 < (batchIter gen create (List.range opts.count.toNat)).errs.length
            · rw [if_pos hpos] at hcne herr
              have hcne' : (batchIter gen create (List.range opts.count.toNat)).codes ≠ [] :=
                hcne
              constructor
              · obtain ⟨pc, hpc⟩ := List.exists_mem_of_ne_nil _ hcne'
                rw [batchIter_codes] at hpc
                obtain ⟨i, hi, hio⟩ := List.mem_filterMap.mp hpc
                exact ⟨i, hi, isOk_iff_toOption.mpr ⟨pc, hio⟩⟩
              · have hene : (batchIter gen create (List.range opts.count.toNat)).errs ≠ [] := by
                  intro hnil
                  rw [hnil] at hpos
                  simp at hpos
                obtain ⟨m, hm⟩ := List.exists_mem_of_ne_nil _ hene
                rw [batchIter_errs] at hm
                obtain ⟨j, hj, hjm⟩ := List.mem_filterMap.mp hm
                exact ⟨j, hj, (not_isOk_iff_failure gen create j).mpr ⟨m, hjm⟩⟩
            · rw [if_neg hpos] at herr
              have herr' : (none : Option String) ≠ none := herr
              exact absurd rfl herr'
  · intro hb hc h0 h1 ⟨i, hi, hiok⟩ ⟨j, hj, hjer⟩
    subst hb
    have hrun := batchCreate_run opts gen create hc h0 h1
    have hpos : 0 < (batchIter gen create (List.range opts.count.toNat)).errs.length := by
      rw [batchIter_errs_length]
      have : j ∈ (List.range opts.count.toNat).filter (fun i => !(create i).isOk) := by
        rw [List.mem_filter]
        exact ⟨hj, by simpa using hjer⟩
      calc 0 < 1 := Nat.zero_lt_one
        _ ≤ _ := List.length_pos.mpr (List.ne_nil_of_mem this)
    rw [hrun, if_pos hpos]
    constructor
    · show (batchIter gen create (List.range opts.count.toNat)).codes ≠ []
      rw [batchIter_codes]
      obtain ⟨pc, hpc⟩ := isOk_iff_toOption.mp hiok
      exact List.ne_nil_of_mem (List.mem_filterMap.mpr ⟨i, hi, hpc⟩)
    · simp

/-- Witness for C2: with one of two calls failing, the command as a whole
succeeds and a non-empty code list is returned alongside a non-nil error. -/
theorem promoBatch_partial_failure_only_witness :
    promoBatchCmd (BatchCreatePromotionCodes true { couponID := "co_1", count := 2 }
        (fun i => "P" ++ toString (i + 1))
        (fun i => if i = 0 then .error "boom" else .ok ⟨"pc", "c"⟩))
      = .ok (BatchCreatePromotionCodes true { couponID := "co_1", count := 2 }
          (fun i => "P" ++ toString (i + 1))
          (fun i => if i = 0 then .error "boom" else .ok ⟨"pc", "c"⟩)).codes
    ∧ (BatchCreatePromotionCodes true { couponID := "co_1", count := 2 }
        (fun i => "P" ++ toString (i + 1))
        (fun i => if i = 0 then .error "boom" else .ok ⟨"pc", "c"⟩)).codes ≠ []
    ∧ (BatchCreatePromotionCodes true { couponID := "co_1", count := 2 }
        (fun i => "P" ++ toString (i + 1))
        (fun i => if i = 0 then .error "boom" else .ok ⟨"pc", "c"⟩)).err ≠ none := by
  have h := promoBatch_partial_failure_only true { couponID := "co_1", count := 2 }
    (fun i => "P" ++ toString (i + 1))
    (fun i => if i = 0 then .error "boom" else .ok ⟨"pc", "c"⟩)
  have hpart := h.2.2 rfl (by decide) (by decide) (by decide)
    ⟨1, by decide, by decide⟩ ⟨0, by decide, by decide⟩
  exact ⟨h.1 hpart.1, hpart.1, hpart.2⟩

/-- Counterexample for C4: the empty string is rejected, but with the plain
"API key cannot be empty" error, which does not wrap the
`ErrInvalidAPIKey` (InvalidFormat) sentinel. -/
theorem validateAPIKey_empty_counterexample :
    validateAPIKey "" = .error .emptyKey
    ∧ KeyError.emptyKey.isInvalidAPIKey = false :=
  ⟨rfl, rfl⟩

/-- C4 (amended): the validator succeeds exactly on strings that start with
"sk_" or "rk_" and have length ≥ 20; every other non-empty string fails
with an InvalidFormat error; the empty string fails too, but with the
distinct "API key cannot be empty" error rather than InvalidFormat. -/
theorem validateAPIKey_spec (s : String) :
    ((validateAPIKey s).isOk
      ↔ ((goHasPrefix s "sk_" ∨ goHasPrefix s "rk_") ∧ 20 ≤ s.length))
    ∧ (s = "" → validateAPIKey s = .error .emptyKey)
    ∧ (∀ e, s ≠ "" → validateAPIKey s = .error e →
        e.isInvalidAPIKey = true) := by
  unfold validateAPIKey
  by_cases he : s = ""
  · subst he
    exact ⟨by decide, fun _ => rfl, fun e hne _ => absurd rfl hne⟩
  · rw [if_neg he]
    by_cases hp : ¬ (goHasPrefix s "sk_") ∧ ¬ (goHasPrefix s "rk_")
    · rw [if_pos hp]
      refine ⟨?_, fun h => absurd h he, fun e _ h => ?_⟩
      · simp only [Except.isOk, Except.toBool]
        constructor
        · intro h; exact absurd h (by simp)
        · intro ⟨hpre, _⟩
          rcases hpre with h | h
          · exact absurd h (by simpa using hp.1)
          · exact absurd h (by simpa using hp.2)
      · cases h
        rfl
    · rw [if_neg hp]
      rw [not_and_or, not_not, not_not] at hp
      by_cases hl : s.length < 20
      · rw [if_pos hl]
        refine ⟨?_, fun h => absurd h he, fun e _ h => ?_⟩
        · simp only [Except.isOk, Except.toBool]
          constructor
          · intro h; exact absurd h (by simp)
          · intro ⟨_, hlen⟩; omega
        · cases h
          rfl
      · rw [if_neg hl]
        refine ⟨?_, fun h => absurd h he, fun e _ h => by cases h⟩
        simp only [Except.isOk, Except.toBool]
        constructor
        · intro _
          exact ⟨by simpa using hp, by omega⟩
        · intro _; trivial

/-- Witness for C4: "abc" is rejected with an error wrapping the
InvalidFormat sentinel. -/
theorem validateAPIKey_spec_witness :
    KeyError.isInvalidAPIKey
        (.invalidFormat "key must start with 'sk_' or 'rk_'") = true :=
  (validateAPIKey_spec "abc").2.2 _ (by decide) (by rfl)

/-- Counterexample for C5: an empty duration is not one of
forever/once/repeating, yet the call with a valid percent_off does not
fail — the empty duration is defaulted to "once" and the request is
dispatched. -/
theorem createCoupon_empty_duration_counterexample :
    ¬ ("" = "forever" ∨ "" = "once" ∨ "" = "repeating")
    ∧ (CreateCoupon true
        { percentOff := some 10, amountOff := none, currency := ""
          duration := "", durationInMonths := none }).isOk = true :=
  ⟨by decide, rfl⟩

/-- C5 (amended): each validation failure of `CreateCoupon` aborts before
any Stripe call is dispatched: neither percent_off nor amount_off given;
both given; amount_off without a currency; a non-empty duration outside
forever/once/repeating (an empty duration is defaulted to "once", not
rejected); duration "repeating" without duration_in_months. -/
theorem createCoupon_validation (opts : CouponCreateOptions) :
    (opts.percentOff.isNone ∧ opts.amountOff.isNone →
      (CreateCoupon true opts).isOk = false)
    ∧ (opts.percentOff.isSome ∧ opts.amountOff.isSome →
      (CreateCoupon true opts).isOk = false)
    ∧ (opts.amountOff.isSome ∧ opts.currency = "" →
      (CreateCoupon true opts).isOk = false)
    ∧ (opts.duration ≠ "" →
        ¬ (opts.duration = "forever" ∨ opts.duration = "once"
            ∨ opts.duration = "repeating") →
      (CreateCoupon true opts).isOk = false)
    ∧ (opts.duration = "repeating" ∧ opts.durationInMonths.isNone →
      (CreateCoupon true opts).isOk = false) := by
  have hok : (CreateCoupon true opts).isOk = true →
      ¬ (opts.percentOff.isNone ∧ opts.amountOff.isNone)
      ∧ ¬ (opts.percentOff.isSome ∧ opts.amountOff.isSome)
      ∧ ¬ (opts.amountOff.isSome ∧ opts.currency = "")
      ∧ ((if opts.duration = "" then "once" else opts.duration) = "forever"
          ∨ (if opts.duration = "" then "once" else opts.duration) = "once"
          ∨ (if opts.duration = "" then "once" else opts.duration) = "repeating")
      ∧ ¬ ((if opts.duration = "" then "once" else opts.duration) = "repeating"
          ∧ opts.durationInMonths.isNone) := by
    intro hok
    unfold CreateCoupon at hok
    rw [if_neg (by simp)] at hok
    by_cases c1 : opts.percentOff.isNone ∧ opts.amountOff.isNone
    · rw [if_pos c1] at hok; cases hok
    rw [if_neg c1] at hok
    by_cases c2 : opts.percentOff.isSome ∧ opts.amountOff.isSome
    · rw [if_pos c2] at hok; cases hok
    rw [if_neg c2] at hok
    by_cases c3 : opts.amountOff.isSome ∧ opts.currency = ""
    · rw [if_pos c3] at hok; cases hok
    rw [if_neg c3] at hok
    by_cases c4 : ¬ ((if opts.duration = "" then "once" else opts.duration) = "forever"
        ∨ (if opts.duration = "" then "once" else opts.duration) = "once"
        ∨ (if opts.duration = "" then "once" else opts.duration) = "repeating")
    · rw [if_pos c4] at hok; cases hok
    rw [if_neg c4] at hok
    by_cases c5 : (if opts.duration = "" then "once" else opts.duration) = "repeating"
        ∧ opts.durationInMonths.isNone
    · rw [if_pos c5] at hok; cases hok
    exact ⟨c1, c2, c3, not_not.mp c4, c5⟩
  have hbool : ∀ {b : Bool}, b ≠ true → b = false := by
    intro b hb; cases b
    · rfl
    · exact absurd rfl hb
  refine ⟨?_, ?_, ?_, ?_, ?_⟩
  · intro h
    exact hbool (fun ht => (hok ht).1 h)
  · intro h
    exact hbool (fun ht => (hok ht).2.1 h)
  · intro h
    exact hbool (fun ht => (hok ht).2.2.1 h)
  · intro hne hinv
    refine hbool (fun ht => ?_)
    have := (hok ht).2.2.2.1
    rw [if_neg hne] at this
    exact hinv this
  · intro h
    refine hbool (fun ht => ?_)
    have := (hok ht).2.2.2.2
    apply this
    have hne : opts.duration ≠ "" := by rw [h.1]; decide
    rw [if_neg hne]
    exact ⟨h.1, h.2⟩

/-- Witness for C5: both percent_off and amount_off given → the call is
rejected before dispatch. -/
theorem createCoupon_validation_witness :
    (CreateCoupon true
      { percentOff := some 10, amountOff := some 500, currency := "usd"
        duration := "once", durationInMonths := none }).isOk = false :=
  (createCoupon_validation _).2.1 ⟨rfl, rfl⟩

/-! ## Lemmas about the association-list representation of Go maps -/

theorem lookup_filter_self (name : String) :
    ∀ l : List (String × Environment),
      (l.filter (fun p => p.1 ≠ name)).lookup name = none := by
  intro l
  induction l with
  | nil => rfl
  | cons p l ih =>
    obtain ⟨k, v⟩ := p
    by_cases hp : k = name
    · simp only [List.filter_cons]
      rw [if_neg (by simp [hp])]
      exact ih
    · simp only [List.filter_cons]
      rw [if_pos (by simp [hp])]
      rw [List.lookup_cons, beq_false_of_ne (fun h => hp h.symm)]
      exact ih

theorem lookup_filter_other (name m : String) (hm : m ≠ name) :
    ∀ l : List (String × Environment),
      (l.filter (fun p => p.1 ≠ name)).lookup m = l.lookup m := by
  intro l
  induction l with
  | nil => rfl
  | cons p l ih =>
    obtain ⟨k, v⟩ := p
    by_cases hp : k = name
    · simp only [List.filter_cons]
      rw [if_neg (by simp [hp])]
      rw [ih, List.lookup_cons,
        beq_false_of_ne (fun h => hm (h.trans hp))]
    · simp only [List.filter_cons]
      rw [if_pos (by simp [hp])]
      rw [List.lookup_cons, List.lookup_cons]
      by_cases hmk : m = k
      · rw [beq_iff_eq.mpr hmk]
      · rw [beq_false_of_ne hmk, ih]

theorem lookup_none_of_key_not_mem (name : String) :
    ∀ l : List (String × Environment),
      name ∉ l.map Prod.fst → l.lookup name = none := by
  intro l
  induction l with
  | nil => intro _; rfl
  | cons p l ih =>
    obtain ⟨k, v⟩ := p
    intro hmem
    rw [List.lookup_cons,
      beq_false_of_ne (fun h : name = k => hmem (by simp [h]))]
    exact ih (fun h => hmem (List.mem_cons_of_mem _ h))

theorem filter_eq_self_of_key_not_mem (name : String) :
    ∀ l : List (String × Environment),
      name ∉ l.map Prod.fst → l.filter (fun p => p.1 ≠ name) = l := by
  intro l
  induction l with
  | nil => intro _; rfl
  | cons p l ih =>
    obtain ⟨k, v⟩ := p
    intro hmem
    simp only [List.filter_cons]
    rw [if_pos (by simp; intro h; exact hmem (by simp [h]))]
    rw [ih (fun h => hmem (List.mem_cons_of_mem _ h))]

theorem length_filter_of_nodup (name : String) :
    ∀ l : List (String × Environment),
      (l.map Prod.fst).Nodup → (l.lookup name).isSome →
      (l.filter (fun p => p.1 ≠ name)).length = l.length - 1 := by
  intro l
  induction l with
  | nil => intro _ h; cases h
  | cons p l ih =>
    obtain ⟨k, v⟩ := p
    intro hnd hsome
    simp only [List.map_cons, List.nodup_cons] at hnd
    by_cases hp : k = name
    · simp only [List.filter_cons]
      rw [if_neg (by simp [hp])]
      rw [filter_eq_self_of_key_not_mem name l (hp ▸ hnd.1)]
      simp
    · simp only [List.filter_cons]
      rw [if_pos (by simp [hp])]
      rw [List.lookup_cons,
        beq_false_of_ne (fun h => hp h.symm)] at hsome
      have hlen := ih hnd.2 hsome
      have hpos : 1 ≤ l.length := by
        cases l with
        | nil => cases hsome
        | cons q l => simp
      simp only [List.length_cons, hlen]
      omega

theorem lookup_mapInsert_self (k : String) (v : Environment)
    (m : List (String × Environment)) :
    (mapInsert k v m).lookup k = some v := by
  unfold mapInsert
  rw [List.lookup_cons, beq_iff_eq.mpr rfl]

theorem lookup_mapInsert_other (k m' : String) (v : Environment)
    (m : List (String × Environment)) (h : m' ≠ k) :
    (mapInsert k v m).lookup m' = m.lookup m' := by
  unfold mapInsert
  rw [List.lookup_cons, beq_false_of_ne h]
  exact lookup_filter_other k m' h m

/-- C6: RemoveEnvironment fails with EnvironmentNotFound on an absent name;
fails when the named environment is the sole remaining one; otherwise it
succeeds, removes exactly that entry (the removed name no longer resolves,
every other name resolves as before, the map shrinks by one), keeps the
current environment when it was not the removed one, and when it was,
reassigns it to one of the remaining environments, so that it names an
existing environment afterwards. -/
theorem removeEnvironment_spec (c : Config) (name : String)
    (hnd : (c.environments.map Prod.fst).Nodup) :
    (c.environments.lookup name = none →
      RemoveEnvironment c name
        = .error ("environment not found: " ++ name))
    ∧ ((c.environments.lookup name).isSome → c.environments.length = 1 →
      RemoveEnvironment c name = .error "cannot remove the last environment")
    ∧ ((c.environments.lookup name).isSome → 2 ≤ c.environments.length →
      ∃ c', RemoveEnvironment c name = .ok c'
        ∧ c'.environments.lookup name = none
        ∧ (∀ m, m ≠ name →
            c'.environments.lookup m = c.environments.lookup m)
        ∧ c'.environments.length = c.environments.length - 1
        ∧ (c.currentEnvironment ≠ name →
            c'.currentEnvironment = c.currentEnvironment)
        ∧ (c.currentEnvironment = name →
            c'.currentEnvironment ∈ c'.environments.map Prod.fst)) := by
  refine ⟨?_, ?_, ?_⟩
  · intro h
    unfold RemoveEnvironment
    rw [if_pos (by simp [h])]
  · intro hsome hlen
    obtain ⟨v, hv⟩ := Option.isSome_iff_exists.mp hsome
    unfold RemoveEnvironment
    rw [if_neg (by simp [hv]), if_pos hlen]
  · intro hsome hlen
    obtain ⟨v, hv⟩ := Option.isSome_iff_exists.mp hsome
    have hflen : (c.environments.filter (fun p => p.1 ≠ name)).length
        = c.environments.length - 1 :=
      length_filter_of_nodup name c.environments hnd hsome
    unfold RemoveEnvironment
    rw [if_neg (by simp [hv]), if_neg (by omega)]
    refine ⟨_, rfl, ?_, ?_, ?_, ?_, ?_⟩
    · exact lookup_filter_self name c.environments
    · exact fun m hm => lookup_filter_other name m hm c.environments
    · exact hflen
    · intro hcur
      show (if c.currentEnvironment = name then _ else c.currentEnvironment)
        = c.currentEnvironment
      rw [if_neg hcur]
    · intro hcur
      have hne : c.environments.filter (fun p => p.1 ≠ name) ≠ [] := by
        intro hnil
        rw [hnil] at hflen
        simp at hflen
        omega
      cases henv : c.environments.filter (fun p => p.1 ≠ name) with
      | nil => exact absurd henv hne
      | cons q t =>
        rw [if_pos hcur]
        simp

/-- Witness for C6: removing the current of two environments succeeds,
drops exactly that entry, and reassigns current to the remaining one. -/
theorem removeEnvironment_spec_witness :
    ∃ c', RemoveEnvironment
        { currentEnvironment := "a"
          environments := [("a", ⟨"", "usd", "table"⟩),
                           ("b", ⟨"", "usd", "table"⟩)] } "a" = .ok c'
      ∧ c'.environments.lookup "a" = none
      ∧ (∀ m, m ≠ "a" →
          c'.environments.lookup m
            = ([("a", (⟨"", "usd", "table"⟩ : Environment)),
                ("b", ⟨"", "usd", "table"⟩)]).lookup m)
      ∧ c'.environments.length
          = ([("a", (⟨"", "usd", "table"⟩ : Environment)),
              ("b", ⟨"", "usd", "table"⟩)]).length - 1
      ∧ (("a" : String) ≠ "a" → c'.currentEnvironment = "a")
      ∧ (("a" : String) = "a" →
          c'.currentEnvironment ∈ c'.environments.map Prod.fst) :=
  (removeEnvironment_spec
    { currentEnvironment := "a"
      environments := [("a", ⟨"", "usd", "table"⟩),
                       ("b", ⟨"", "usd", "table"⟩)] } "a"
    (by decide)).2.2 (by decide) (by decide)

/-- Counterexample for C7: loading an existing config file whose
environments object is empty yields a configuration with zero
environments, so initialization alone does not establish the claimed
invariant. -/
theorem load_empty_environments_counterexample :
    (Load (some { current_environment := "x", environments := [] })).environments
      = [] := rfl

/-- C7 (amended): the configuration contains at least one environment after
Load whenever the file was absent (default created) or the loaded file
itself contained at least one environment, and non-emptiness is preserved
by every mutation (AddEnvironment, RemoveEnvironment,
SetCurrentEnvironment, UpdateEnvironmentAPIKey, Reset); Load of an existing
file with an empty environments object, however, yields zero environments. -/
theorem config_nonempty_invariant :
    (Load none).environments ≠ []
    ∧ (∀ f : ConfigFile, f.environments ≠ [] →
        (Load (some f)).environments ≠ [])
    ∧ (∀ c name env c', AddEnvironment c name env = .ok c' →
        c'.environments ≠ [])
    ∧ (∀ c name c', (c.environments.map Prod.fst).Nodup →
        RemoveEnvironment c name = .ok c' → c'.environments ≠ [])
    ∧ (∀ c name c', c.environments ≠ [] →
        SetCurrentEnvironment c name = .ok c' → c'.environments ≠ [])
    ∧ (∀ c envName apiKey c', c.environments ≠ [] →
        UpdateEnvironmentAPIKey c envName apiKey = .ok c' →
        c'.environments ≠ [])
    ∧ (∀ c, (Reset c).environments ≠ []) := by
  refine ⟨by simp [Load, DefaultConfig], ?_, ?_, ?_, ?_, ?_, ?_⟩
  · intro f hf
    simpa [Load] using hf
  · intro c name env c' h
    unfold AddEnvironment at h
    by_cases hn : name = ""
    · rw [if_pos hn] at h; cases h
    · rw [if_neg hn] at h
      cases hk : (if env.stripeAPIKey = "" then Except.ok ()
          else validateAPIKey env.stripeAPIKey) with
      | error e => rw [hk] at h; cases h
      | ok u =>
        rw [hk] at h
        cases h
        simp [mapInsert]
  · intro c name c' hnd h
    unfold RemoveEnvironment at h
    by_cases habs : (c.environments.lookup name).isNone
    · rw [if_pos habs] at h; cases h
    · rw [if_neg habs] at h
      by_cases hlen : c.environments.length = 1
      · rw [if_pos hlen] at h; cases h
      · rw [if_neg hlen] at h
        cases h
        have hsome : (c.environments.lookup name).isSome := by
          cases hl : c.environments.lookup name with
          | none => rw [hl] at habs; simp at habs
          | some v => rfl
        have hflen := length_filter_of_nodup name c.environments hnd hsome
        have hpos : 1 ≤ c.environments.length := by
          cases he : c.environments with
          | nil => rw [he] at hsome; cases hsome
          | cons p t => simp [he]
        show c.environments.filter (fun p => p.1 ≠ name) ≠ []
        intro hnil
        rw [hnil] at hflen
        simp at hflen
        omega
  · intro c name c' hc h
    unfold SetCurrentEnvironment at h
    by_cases habs : (c.environments.lookup name).isNone
    · rw [if_pos habs] at h; cases h
    · rw [if_neg habs] at h
      cases h
      exact hc
  · intro c envName apiKey c' hc h
    unfold UpdateEnvironmentAPIKey at h
    cases hl : c.environments.lookup envName with
    | none => rw [hl] at h; cases h
    | some env =>
      rw [hl] at h
      cases hv : validateAPIKey apiKey with
      | error e => rw [hv] at h; cases h
      | ok u =>
        rw [hv] at h
        cases h
        simp [mapInsert]
  · intro c
    simp [Reset, DefaultConfig]

/-- Witness for C7: a loaded one-environment file keeps an environment, and
removing one of two environments keeps one. -/
theorem config_nonempty_invariant_witness :
    (Load (some { current_environment := "test"
                  environments := [("test", ⟨"", "usd", "table"⟩)] })).environments ≠ []
    ∧ (Config.mk "b" [("b", ⟨"", "usd", "table"⟩)]).environments ≠ [] :=
  ⟨config_nonempty_invariant.2.1 _ (by decide),
   config_nonempty_invariant.2.2.2.1
    { currentEnvironment := "a"
      environments := [("a", ⟨"", "usd", "table"⟩),
                       ("b", ⟨"", "usd", "table"⟩)] } "a"
    (Config.mk "b" [("b", ⟨"", "usd", "table"⟩)]) (by decide) (by rfl)⟩

/-- Counterexample for C8: a configuration state whose current-environment
is empty does not round-trip — Load normalises the empty value to "test",
so the current-environment value is not reproduced. -/
theorem save_load_counterexample :
    (Config.mk "" [("prod", ⟨"", "usd", "table"⟩)]).currentEnvironment = ""
    ∧ (Load (some (Save
        (Config.mk "" [("prod", ⟨"", "usd", "table"⟩)])))).currentEnvironment
      = "test"
    ∧ ("test" : String) ≠ "" :=
  ⟨rfl, rfl, by decide⟩

/-- C8 (amended): for every configuration whose current-environment value
is non-empty (which includes every configuration this program itself
produces), Save followed by Load reproduces the identical environment map
and the same current-environment value. -/
theorem save_load_roundtrip (c : Config) (h : c.currentEnvironment ≠ "") :
    (Load (some (Save c))).currentEnvironment = c.currentEnvironment
    ∧ ∀ n, (Load (some (Save c))).environments.lookup n
        = c.environments.lookup n := by
  unfold Load Save
  exact ⟨by simp [h], fun n => rfl⟩

/-- Witness for C8: the default configuration round-trips. -/
theorem save_load_roundtrip_witness :
    (Load (some (Save DefaultConfig))).currentEnvironment
      = DefaultConfig.currentEnvironment
    ∧ ∀ n, (Load (some (Save DefaultConfig))).environments.lookup n
        = DefaultConfig.environments.lookup n :=
  save_load_roundtrip DefaultConfig (by decide)

/-- C9: AddEnvironment fails on an empty name; fails when the environment
carries a non-empty API key rejected by the format validator; and on
success stores the environment under the given name with its API key
unchanged, its currency defaulted to "usd" when unset, and its output
format defaulted to "table" when unset, leaving all other entries and the
current environment untouched. -/
theorem addEnvironment_spec (c : Config) (name : String) (env : Environment) :
    (name = "" → AddEnvironment c name env
      = .error "environment name cannot be empty")
    ∧ (name ≠ "" → env.stripeAPIKey ≠ "" →
        ∀ e, validateAPIKey env.stripeAPIKey = .error e →
        AddEnvironment c name env = .error e.message)
    ∧ (name ≠ "" →
        (env.stripeAPIKey = "" ∨ (validateAPIKey env.stripeAPIKey).isOk) →
        ∃ c', AddEnvironment c name env = .ok c'
          ∧ c'.environments.lookup name = some
              { stripeAPIKey := env.stripeAPIKey
                defaultCurrency :=
                  if env.defaultCurrency = "" then "usd"
                  else env.defaultCurrency
                outputFormat :=
                  if env.outputFormat = "" then "table"
                  else env.outputFormat }
          ∧ (∀ m, m ≠ name →
              c'.environments.lookup m = c.environments.lookup m)
          ∧ c'.currentEnvironment = c.currentEnvironment) := by
  refine ⟨?_, ?_, ?_⟩
  · intro h
    unfold AddEnvironment
    rw [if_pos h]
  · intro hn hk e he
    unfold AddEnvironment
    rw [if_neg hn, if_neg hk, he]
  · intro hn hok
    unfold AddEnvironment
    rw [if_neg hn]
    have hscrut : (if env.stripeAPIKey = "" then Except.ok ()
        else validateAPIKey env.stripeAPIKey) = Except.ok () := by
      rcases hok with h | h
      · rw [if_pos h]
      · by_cases hk : env.stripeAPIKey = ""
        · rw [if_pos hk]
        · rw [if_neg hk]
          cases hv : validateAPIKey env.stripeAPIKey with
          | error e => rw [hv] at h; cases h
          | ok u => rfl
    rw [hscrut]
    exact ⟨_, rfl, lookup_mapInsert_self name _ c.environments,
      fun m hm => lookup_mapInsert_other name m _ c.environments hm, rfl⟩

/-- Witness for C9: adding an environment with no key and unset
currency/format stores it with the "usd"/"table" defaults. -/
theorem addEnvironment_spec_witness :
    ∃ c', AddEnvironment DefaultConfig "prod" ⟨"", "", ""⟩ = .ok c'
      ∧ c'.environments.lookup "prod"
          = some { stripeAPIKey := ""
                   defaultCurrency := if ("" : String) = "" then "usd" else ""
                   outputFormat := if ("" : String) = "" then "table" else "" }
      ∧ (∀ m, m ≠ "prod" →
          c'.environments.lookup m
            = DefaultConfig.environments.lookup m)
      ∧ c'.currentEnvironment = DefaultConfig.currentEnvironment :=
  (addEnvironment_spec DefaultConfig "prod" ⟨"", "", ""⟩).2.2
    (by decide) (Or.inl rfl)

/-- C10: maskAPIKey never reveals the middle of a key: the empty key
renders as "Not set", non-empty keys of length ≤ 10 as exactly "****", and
longer keys as their first three characters, then "****", then their last
four characters — so at most seven characters of the key appear. -/
theorem maskAPIKey_spec (s : String) :
    (s = "" → maskAPIKey s = "Not set")
    ∧ (s ≠ "" → s.length ≤ 10 → maskAPIKey s = "****")
    ∧ (10 < s.length →
        maskAPIKey s = s.take 3 ++ "****" ++ s.drop (s.length - 4)
        ∧ (s.take 3).length = 3
        ∧ (s.drop (s.length - 4)).length = 4) := by
  have hdata : s.length = s.data.length := rfl
  refine ⟨?_, ?_, ?_⟩
  · intro h
    subst h
    rfl
  · intro hne hlen
    unfold maskAPIKey
    rw [if_neg hne, if_pos hlen]
  · intro hlen
    have hne : s ≠ "" := by
      intro h
      subst h
      simp at hlen
    refine ⟨?_, ?_, ?_⟩
    · unfold maskAPIKey
      rw [if_neg hne, if_neg (by omega)]
    · show (s.take 3).data.length = 3
      rw [String.data_take, List.length_take]
      rw [hdata] at hlen
      omega
    · show (s.drop (s.length - 4)).data.length = 4
      rw [String.data_drop, List.length_drop]
      rw [hdata] at hlen
      rw [hdata]
      omega

/-- Witness for C10: a 15-character key keeps only its first three and last
four characters around the mask. -/
theorem maskAPIKey_spec_witness :
    maskAPIKey "sk_abcdefgh1234"
      = "sk_abcdefgh1234".take 3 ++ "****"
        ++ "sk_abcdefgh1234".drop ("sk_abcdefgh1234".length - 4)
    ∧ ("sk_abcdefgh1234".take 3).length = 3
    ∧ ("sk_abcdefgh1234".drop ("sk_abcdefgh1234".length - 4)).length = 4 :=
  (maskAPIKey_spec "sk_abcdefgh1234").2.2 (by decide)

end Coupongo
